import Mathlib

/-!
Verification of the resumable file fetcher in `download_medicaid_data.py`.

The script's three library functions — `get_file_size`, `download_file` and
`calculate_sha256` — are shallowly embedded below.  Files are byte lists
(each byte a `Nat`, values < 256 in practice), the network is an explicit
environment record, and `download_file` returns a trace record capturing
everything the claims talk about: the outcome (returned `True`, returned
`False`, or an uncaught Python exception), the final destination file
content, whether a `Range` header was sent and with what offset, whether the
body `GET` was attempted, the file-open mode used, and the progress-bar
values reported after each written chunk.
-/

namespace Medicaid

/-- File-open mode passed to Python's `open`: `ab` appends to the existing
file, `wb` truncates it to zero length on open. -/
inductive FileMode
  | ab
  | wb
deriving Repr, DecidableEq

/-- Outcome of a `download_file` call.  `retTrue`/`retFalse` are the
function's `return True` / `return False`; `raised` is an exception that
escapes the function uncaught (the `except` clause only catches
`requests.exceptions.RequestException`). -/
inductive Outcome
  | retTrue
  | retFalse (msg : String)
  | raised (msg : String)
deriving Repr, DecidableEq

/-- A `requests.get(..., stream=True)` response as the client observes it:
the status code, the body chunks that `iter_content` successfully yields,
and an optional network error raised by `iter_content` after those chunks. -/
structure GetResponse where
  status : Nat
  chunks : List (List Nat)
  streamError : Option String
deriving Repr, DecidableEq

/-- The environment of one `download_file` invocation: the destination file
(`none` = does not exist), the outcome of the `HEAD` probe (`Except.error` =
the probe itself raised; otherwise the optional `content-length` header),
the `GET` response as a function of the `Range` offset sent (`none` = no
`Range` header; `Except.error` = `requests.get` raised), and local
filesystem failures: `openError` for `open(dest_path, mode)` and
`writeError i` for the write of the i-th nonempty chunk. -/
structure Env where
  destFile : Option (List Nat)
  headResult : Except String (Option Nat)
  getResult : Option Nat → Except String GetResponse
  openError : FileMode → Option String
  writeError : Nat → Option String

/-- Trace of one `download_file` invocation. -/
structure DLResult where
  outcome : Outcome
  file : Option (List Nat)
  alreadyComplete : Bool
  rangeSent : Option Nat
  getAttempted : Bool
  openedMode : Option FileMode
  progressInitial : Nat
  pbarTotal : Option Nat
  progressReports : List Nat
deriving Repr, DecidableEq

/-- Embeds `get_file_size` (lines 51-54): `int(response.headers.get('content-length', 0))`,
applied to the `content-length` header of the `HEAD` response. -/
def get_file_size (contentLength : Option Nat) : Nat :=
  contentLength.getD 0

/-- The streaming loop (lines 111-114): `for chunk in response.iter_content(...)`,
skipping empty chunks (`if chunk:`), writing each chunk and updating the
progress bar by its length.  Returns the bytes written, the cumulative
progress values reported after each written chunk (starting from `cum`),
and the error message if a write raised. -/
def streamChunks (we : Nat → Option String) :
    List (List Nat) → Nat → Nat → List Nat × List Nat × Option String
  | [], _, _ => ([], [], none)
  | c :: rest, idx, cum =>
    if c = [] then streamChunks we rest idx cum
    else
      match we idx with
      | some e => ([], [], some e)
      | none =>
        let r := streamChunks we rest (idx + 1) (cum + c.length)
        (c ++ r.1, (cum + c.length) :: r.2.1, r.2.2)

/-- The file content right after `open(dest_path, mode)`: `ab` keeps the
existing bytes, `wb` truncates to empty. -/
def openBase (env : Env) : FileMode → List Nat
  | FileMode.ab => env.destFile.getD []
  | FileMode.wb => []

/-- Lines 102-117 of `download_file`: `open(dest_path, mode)` succeeded, the
file is truncated if the mode is `wb`, the body is streamed chunk by chunk
with the progress bar at `initial=downloaded_size, total=total_size`, and
the result is `True` on completion, `False` if `iter_content` raises a
`requests` exception (caught), or an uncaught exception if a write fails. -/
def streamPhase (env : Env) (total_size downloaded_size : Nat) (mode : FileMode)
    (rangeHeader : Option Nat) (resp : GetResponse) : DLResult :=
  let base := openBase env mode
  let s := streamChunks env.writeError resp.chunks 0 downloaded_size
  let finalFile := some (base ++ s.1)
  match s.2.2 with
  | some e =>
    { outcome := Outcome.raised e, file := finalFile, alreadyComplete := false,
      rangeSent := rangeHeader, getAttempted := true, openedMode := some mode,
      progressInitial := downloaded_size, pbarTotal := some total_size,
      progressReports := s.2.1 }
  | none =>
    match resp.streamError with
    | some e =>
      { outcome := Outcome.retFalse ("Download error: " ++ e), file := finalFile,
        alreadyComplete := false, rangeSent := rangeHeader, getAttempted := true,
        openedMode := some mode, progressInitial := downloaded_size,
        pbarTotal := some total_size, progressReports := s.2.1 }
    | none =>
      { outcome := Outcome.retTrue, file := finalFile, alreadyComplete := false,
        rangeSent := rangeHeader, getAttempted := true, openedMode := some mode,
        progressInitial := downloaded_size, pbarTotal := some total_size,
        progressReports := s.2.1 }

/-- Lines 82-85: the `Range: bytes=k-` header is set exactly when the
pre-existing size `k` is positive; the value records the offset sent. -/
def rangeHeaderOf (k : Nat) : Option Nat :=
  if 0 < k then some k else none

/-- Line 88: `mode = 'ab' if downloaded_size > 0 else 'wb'`. -/
def modeOf (k : Nat) : FileMode :=
  if 0 < k then FileMode.ab else FileMode.wb

/-- Lines 95-100: the resume offset actually used after inspecting the
status — a 206 keeps it, any other success status resets it to 0. -/
def effectiveSize (k status : Nat) : Nat :=
  if status = 206 then k else 0

/-- Lines 95-100: the open mode actually used after inspecting the status —
a 206 keeps the chosen mode, any other success status forces `wb`. -/
def effectiveMode (k status : Nat) : FileMode :=
  if status = 206 then modeOf k else FileMode.wb

/-- Lines 82-117 of `download_file`: issue the `GET` with the `Range`
header inside the `try` block, `raise_for_status` (an HTTP error status
becomes a caught exception and `return False`), open the destination with
the effective mode (an `OSError` there is not a `RequestException`, so it
escapes uncaught), then stream. -/
def transferPhase (env : Env) (total_size downloaded_size0 : Nat) : DLResult :=
  match env.getResult (rangeHeaderOf downloaded_size0) with
  | Except.error e =>
    { outcome := Outcome.retFalse ("Download error: " ++ e), file := env.destFile,
      alreadyComplete := false, rangeSent := rangeHeaderOf downloaded_size0,
      getAttempted := true, openedMode := none, progressInitial := 0,
      pbarTotal := none, progressReports := [] }
  | Except.ok resp =>
    if 400 ≤ resp.status then
      { outcome := Outcome.retFalse ("Download error: HTTP status " ++ toString resp.status),
        file := env.destFile, alreadyComplete := false,
        rangeSent := rangeHeaderOf downloaded_size0,
        getAttempted := true, openedMode := none, progressInitial := 0,
        pbarTotal := none, progressReports := [] }
    else
      match env.openError (effectiveMode downloaded_size0 resp.status) with
      | some e =>
        { outcome := Outcome.raised e, file := env.destFile, alreadyComplete := false,
          rangeSent := rangeHeaderOf downloaded_size0, getAttempted := true,
          openedMode := none, progressInitial := 0, pbarTotal := none,
          progressReports := [] }
      | none =>
        streamPhase env total_size (effectiveSize downloaded_size0 resp.status)
          (effectiveMode downloaded_size0 resp.status)
          (rangeHeaderOf downloaded_size0) resp

/-- Embeds `download_file` (lines 57-121).  `downloaded_size` is the size of the
existing destination file (0 if absent); `get_file_size` is called outside
the `try` block, so a `HEAD` failure is an uncaught exception; if
`downloaded_size >= total_size and total_size > 0` the function returns
`True` without any body request; otherwise it transfers. -/
def download_file (env : Env) : DLResult :=
  let downloaded_size0 := (env.destFile.map List.length).getD 0
  match env.headResult with
  | Except.error e =>
    { outcome := Outcome.raised e, file := env.destFile, alreadyComplete := false,
      rangeSent := none, getAttempted := false, openedMode := none,
      progressInitial := 0, pbarTotal := none, progressReports := [] }
  | Except.ok header =>
    let total_size := get_file_size header
    if downloaded_size0 ≥ total_size ∧ 0 < total_size then
      { outcome := Outcome.retTrue, file := env.destFile, alreadyComplete := true,
        rangeSent := none, getAttempted := false, openedMode := none,
        progressInitial := 0, pbarTotal := none, progressReports := [] }
    else transferPhase env total_size downloaded_size0

/-! ### SHA-256 (`hashlib.sha256`) and `calculate_sha256` -/

/-- The word modulus 2^32 of SHA-256. -/
def w32 : Nat := 4294967296

/-- Addition modulo 2^32. -/
def add32 (a b : Nat) : Nat := (a + b) % w32

/-- Right rotation of a 32-bit word. -/
def rotr32 (x n : Nat) : Nat := ((x >>> n) ||| (x <<< (32 - n))) % w32

/-- SHA-256 small sigma 0. -/
def ssig0 (x : Nat) : Nat := rotr32 x 7 ^^^ rotr32 x 18 ^^^ (x >>> 3)

/-- SHA-256 small sigma 1. -/
def ssig1 (x : Nat) : Nat := rotr32 x 17 ^^^ rotr32 x 19 ^^^ (x >>> 10)

/-- SHA-256 big Sigma 0. -/
def bsig0 (x : Nat) : Nat := rotr32 x 2 ^^^ rotr32 x 13 ^^^ rotr32 x 22

/-- SHA-256 big Sigma 1. -/
def bsig1 (x : Nat) : Nat := rotr32 x 6 ^^^ rotr32 x 11 ^^^ rotr32 x 25

/-- SHA-256 choice function: `(x ∧ y) ⊕ (¬x ∧ z)` on 32-bit words. -/
def chWord (x y z : Nat) : Nat := (x &&& y) ^^^ ((x ^^^ (w32 - 1)) &&& z)

/-- SHA-256 majority function. -/
def majWord (x y z : Nat) : Nat := (x &&& y) ^^^ (x &&& z) ^^^ (y &&& z)

/-- The 64 SHA-256 round constants. -/
def sha256K : List Nat :=
  [1116352408, 1899447441, 3049323471, 3921009573, 961987163,
   1508970993, 2453635748, 2870763221, 3624381080, 310598401,
   607225278, 1426881987, 1925078388, 2162078206, 2614888103,
   3248222580, 3835390401, 4022224774, 264347078, 604807628,
   770255983, 1249150122, 1555081692, 1996064986, 2554220882,
   2821834349, 2952996808, 3210313671, 3336571891, 3584528711,
   113926993, 338241895, 666307205, 773529912, 1294757372,
   1396182291, 1695183700, 1986661051, 2177026350, 2456956037,
   2730485921, 2820302411, 3259730800, 3345764771, 3516065817,
   3600352804, 4094571909, 275423344, 430227734, 506948616,
   659060556, 883997877, 958139571, 1322822218, 1537002063,
   1747873779, 1955562222, 2024104815, 2227730452, 2361852424,
   2428436474, 2756734187, 3204031479, 3329325298]

/-- The eight 32-bit words of SHA-256 state. -/
structure Hash8 where
  a : Nat
  b : Nat
  c : Nat
  d : Nat
  e : Nat
  f : Nat
  g : Nat
  h : Nat
deriving Repr, DecidableEq

/-- The SHA-256 initial state. -/
def sha256H0 : Hash8 :=
  ⟨1779033703, 3144134277, 1013904242, 2773480762,
   1359893119, 2600822924, 528734635, 1541459225⟩

/-- One SHA-256 compression round for a key/schedule word pair. -/
def roundStep (st : Hash8) (kw : Nat × Nat) : Hash8 :=
  let t1 := add32 (add32 (add32 st.h (bsig1 st.e)) (add32 (chWord st.e st.f st.g) kw.1)) kw.2
  let t2 := add32 (bsig0 st.a) (majWord st.a st.b st.c)
  ⟨add32 t1 t2, st.a, st.b, st.c, add32 st.d t1, st.e, st.f, st.g⟩

/-- Append the next message-schedule word
`W_i = σ1(W_(i-2)) + W_(i-7) + σ0(W_(i-15)) + W_(i-16)`. -/
def scheduleStep (ws : List Nat) : List Nat :=
  let i := ws.length
  ws ++ [add32 (add32 (ssig1 (ws.getD (i - 2) 0)) (ws.getD (i - 7) 0))
               (add32 (ssig0 (ws.getD (i - 15) 0)) (ws.getD (i - 16) 0))]

/-- Split a list into runs of `n` elements (the last may be shorter); the
fuel argument bounds the recursion by the list length. -/
def chunksOfFuel : Nat → Nat → List Nat → List (List Nat)
  | 0, _, _ => []
  | _, _, [] => []
  | fuel + 1, n, x :: xs => ((x :: xs).take n) :: chunksOfFuel fuel n ((x :: xs).drop n)

/-- Split a list into runs of `n` elements; for `n > 0` this models the
Python idiom `iter(lambda: f.read(n), b"")` of reading a file in `n`-byte
chunks until exhaustion. -/
def chunksOf (n : Nat) (xs : List Nat) : List (List Nat) :=
  chunksOfFuel xs.length n xs

/-- Big-endian word from a list of bytes. -/
def bytesToWordBE (bs : List Nat) : Nat :=
  bs.foldl (fun acc b => acc * 256 + b % 256) 0

/-- The `count` big-endian bytes of `n`, most significant first. -/
def natToBytesBE (n count : Nat) : List Nat :=
  (List.range count).map (fun i => (n >>> (8 * (count - 1 - i))) % 256)

/-- SHA-256 padding: append `0x80`, zero bytes to reach 56 mod 64, then the
bit length as 8 big-endian bytes. -/
def sha256Pad (msg : List Nat) : List Nat :=
  msg ++ [0x80] ++ List.replicate ((119 - msg.length % 64) % 64) 0
      ++ natToBytesBE (msg.length * 8) 8

/-- Compress one 64-byte block into the state. -/
def sha256Compress (st : Hash8) (block : List Nat) : Hash8 :=
  let ws := Nat.repeat scheduleStep 48 ((chunksOf 4 block).map bytesToWordBE)
  let r := (sha256K.zip ws).foldl roundStep st
  ⟨add32 st.a r.a, add32 st.b r.b, add32 st.c r.c, add32 st.d r.d,
   add32 st.e r.e, add32 st.f r.f, add32 st.g r.g, add32 st.h r.h⟩

/-- SHA-256 of a byte sequence, as the eight-word final state. -/
def sha256Words (msg : List Nat) : Hash8 :=
  (chunksOf 64 (sha256Pad msg)).foldl sha256Compress sha256H0

/-- The sixteen lowercase hexadecimal digits. -/
def hexDigits : List Char :=
  "0123456789abcdef".toList

/-- Eight lowercase hex characters of a 32-bit word, most significant first. -/
def wordToHex (w : Nat) : List Char :=
  (List.range 8).map (fun i => hexDigits.getD ((w >>> (4 * (7 - i))) % 16) '0')

/-- Lowercase hexadecimal SHA-256 digest of a byte sequence: the observable
behavior of `hashlib.sha256(data).hexdigest()`. -/
def sha256hex (msg : List Nat) : String :=
  let st := sha256Words msg
  String.mk (([st.a, st.b, st.c, st.d, st.e, st.f, st.g, st.h].map wordToHex).flatten)

/-- The `update` step of a streaming hash accumulator: the accumulator's observable
state is the byte sequence fed so far. -/
def sha256_update (state chunk : List Nat) : List Nat := state ++ chunk

/-- Embeds `calculate_sha256` (lines 124-138): read the file in `chunk_size`-byte
chunks, feed each into the accumulator, return the final hex digest.  The
first argument is the file's byte content. -/
def calculate_sha256 (fileContent : List Nat) (chunk_size : Nat) : String :=
  sha256hex ((chunksOf chunk_size fileContent).foldl sha256_update [])

/-! ### Concrete environments used to instantiate the theorems -/

/-- A 2-byte partial file; the server ignores the range request and answers
200 with the full 5-byte content. -/
def c1Env : Env :=
  { destFile := some [7, 7]
    headResult := Except.ok (some 5)
    getResult := fun _ => Except.ok ⟨200, [[1, 2, 3], [4, 5]], none⟩
    openError := fun _ => none
    writeError := fun _ => none }

/-- The `open` call fails with a permission error while the network behaves. -/
def c2CexEnv : Env :=
  { destFile := none
    headResult := Except.ok (some 1)
    getResult := fun _ => Except.ok ⟨200, [[1]], none⟩
    openError := fun _ => some "Permission denied"
    writeError := fun _ => none }

/-- The `GET` itself raises a connection error. -/
def c2AmEnv : Env :=
  { destFile := none
    headResult := Except.ok (some 1)
    getResult := fun _ => Except.error "Connection refused"
    openError := fun _ => none
    writeError := fun _ => none }

/-- A 2-byte partial file; the server honors the range with a 206 whose body
is the 3-byte remainder of the 5-byte file. -/
def c3Env : Env :=
  { destFile := some [9, 8]
    headResult := Except.ok (some 5)
    getResult := fun _ => Except.ok ⟨206, [[1, 2, 3]], none⟩
    openError := fun _ => none
    writeError := fun _ => none }

/-- A destination already holding all 3 bytes of a 3-byte remote file. -/
def c4Env : Env :=
  { destFile := some [1, 2, 3]
    headResult := Except.ok (some 3)
    getResult := fun _ => Except.error "no body request is made"
    openError := fun _ => none
    writeError := fun _ => none }

/-- A resumed transfer that dies mid-stream after two delivered bytes. -/
def c5Env : Env :=
  { destFile := some [9]
    headResult := Except.ok (some 10)
    getResult := fun _ => Except.ok ⟨206, [[1, 2]], some "Connection reset"⟩
    openError := fun _ => none
    writeError := fun _ => none }

/-- A fresh download of a 3-byte file. -/
def c7Env : Env :=
  { destFile := none
    headResult := Except.ok (some 3)
    getResult := fun _ => Except.ok ⟨200, [[1, 2, 3]], none⟩
    openError := fun _ => none
    writeError := fun _ => none }

/-- The `HEAD` response has no `content-length` header (size unknown) while
a 1-byte partial file exists. -/
def c10Env : Env :=
  { destFile := some [5]
    headResult := Except.ok none
    getResult := fun _ => Except.ok ⟨206, [[1]], none⟩
    openError := fun _ => none
    writeError := fun _ => none }

/-! ### Helper lemmas -/

theorem flatten_chunksOfFuel (n : Nat) (hn : 0 < n) :
    ∀ (fuel : Nat) (xs : List Nat), xs.length ≤ fuel →
      (chunksOfFuel fuel n xs).flatten = xs := by
  intro fuel
  induction fuel with
  | zero =>
    intro xs h
    have : xs = [] := List.eq_nil_of_length_eq_zero (Nat.le_zero.mp h)
    subst this
    rfl
  | succ fuel ih =>
    intro xs h
    cases xs with
    | nil => rfl
    | cons x xs =>
      have hlen : ((x :: xs).drop n).length ≤ fuel := by
        simp only [List.length_drop, List.length_cons]
        simp only [List.length_cons] at h
        omega
      simp only [chunksOfFuel, List.flatten_cons, ih _ hlen, List.take_append_drop]

theorem flatten_chunksOf (n : Nat) (hn : 0 < n) (xs : List Nat) :
    (chunksOf n xs).flatten = xs :=
  flatten_chunksOfFuel n hn xs.length xs le_rfl

theorem foldl_sha256_update (l : List (List Nat)) :
    ∀ acc, l.foldl sha256_update acc = acc ++ l.flatten := by
  induction l with
  | nil => intro acc; simp
  | cons c rest ih =>
    intro acc
    simp [List.foldl_cons, sha256_update, ih, List.append_assoc]

theorem calculate_sha256_eq (content : List Nat) (cs : Nat) (h : 0 < cs) :
    calculate_sha256 content cs = sha256hex content := by
  unfold calculate_sha256
  rw [foldl_sha256_update, List.nil_append, flatten_chunksOf cs h]

theorem hexDigits_getD_mem (k : Nat) : hexDigits.getD k '0' ∈ hexDigits := by
  by_cases hk : k < 16
  · interval_cases k <;> decide
  · rw [List.getD_eq_default]
    · decide
    · have h16 : hexDigits.length = 16 := by decide
      omega

theorem wordToHex_length (w : Nat) : (wordToHex w).length = 8 := by
  simp [wordToHex]

theorem mem_wordToHex (w : Nat) (c : Char) (hc : c ∈ wordToHex w) : c ∈ hexDigits := by
  simp only [wordToHex, List.mem_map] at hc
  obtain ⟨i, _, rfl⟩ := hc
  exact hexDigits_getD_mem _

theorem sha256hex_length (msg : List Nat) : (sha256hex msg).length = 64 := by
  simp [sha256hex, String.length, wordToHex_length]

theorem sha256hex_chars (msg : List Nat) :
    ∀ c ∈ (sha256hex msg).toList, c ∈ hexDigits := by
  intro c hc
  simp only [sha256hex, String.toList, List.mem_flatten, List.mem_map] at hc
  obtain ⟨l, ⟨w, _, rfl⟩, hcl⟩ := hc
  exact mem_wordToHex w c hcl

set_option maxRecDepth 100000 in
theorem sha256hex_nil :
    sha256hex [] = "e3b0c44298fc1c149afbf4c8996fb92427ae41e4649b934ca495991b7852b855" := by
  decide

theorem rangeHeaderOf_pos {k : Nat} (h : 0 < k) : rangeHeaderOf k = some k := by
  rw [rangeHeaderOf, if_pos h]

theorem rangeHeaderOf_zero : rangeHeaderOf 0 = none := rfl

theorem modeOf_pos {k : Nat} (h : 0 < k) : modeOf k = FileMode.ab := by
  rw [modeOf, if_pos h]

theorem effectiveMode_200 (k : Nat) : effectiveMode k 200 = FileMode.wb := rfl

theorem effectiveSize_200 (k : Nat) : effectiveSize k 200 = 0 := rfl

theorem effectiveMode_206 (k : Nat) : effectiveMode k 206 = modeOf k := rfl

theorem effectiveSize_206 (k : Nat) : effectiveSize k 206 = k := rfl

theorem streamChunks_no_write_error (we : Nat → Option String) (hwe : ∀ i, we i = none) :
    ∀ (chunks : List (List Nat)) (idx cum : Nat),
      (streamChunks we chunks idx cum).1 = chunks.flatten ∧
      (streamChunks we chunks idx cum).2.2 = none := by
  intro chunks
  induction chunks with
  | nil => intro idx cum; exact ⟨rfl, rfl⟩
  | cons c rest ih =>
    intro idx cum
    by_cases hc : c = []
    · subst hc
      simp only [streamChunks, if_pos rfl, List.flatten_cons, List.nil_append]
      exact ih idx cum
    · obtain ⟨h1, h2⟩ := ih (idx + 1) (cum + c.length)
      simp only [streamChunks, if_neg hc, hwe idx, List.flatten_cons]
      simp [h1, h2]

theorem streamChunks_chain (we : Nat → Option String) :
    ∀ (chunks : List (List Nat)) (idx cum : Nat),
      List.Chain' (· ≤ ·) (cum :: (streamChunks we chunks idx cum).2.1) := by
  intro chunks
  induction chunks with
  | nil => intro idx cum; simp [streamChunks]
  | cons c rest ih =>
    intro idx cum
    by_cases hc : c = []
    · subst hc
      simpa only [streamChunks, if_pos rfl] using ih idx cum
    · simp only [streamChunks, if_neg hc]
      cases hwe : we idx with
      | some e => simp
      | none =>
        exact List.chain'_cons.mpr ⟨Nat.le_add_right _ _, ih (idx + 1) (cum + c.length)⟩

/-! ### Claim theorems -/

/-- C1: when a range request was sent (resume offset `prior.length > 0`) but
the server responds 200 instead of 206, `download_file` discards the resume
assumption: the progress baseline is reset to 0, the destination is opened
in truncating `wb` mode rather than append mode, and after a successful
transfer the destination equals exactly the response body — the full remote
content, with no duplicated or overlapping prefix — regardless of the prior
partial content. -/
theorem c1_status200_discards_resume (env : Env) (prior : List Nat)
    (hdr : Option Nat) (resp : GetResponse)
    (hfile : env.destFile = some prior)
    (hk : 0 < prior.length)
    (hhead : env.headResult = Except.ok hdr)
    (hcond : ¬(prior.length ≥ get_file_size hdr ∧ 0 < get_file_size hdr))
    (hget : env.getResult (some prior.length) = Except.ok resp)
    (hs : resp.status = 200)
    (hopen : env.openError FileMode.wb = none)
    (hwe : ∀ i, env.writeError i = none)
    (hse : resp.streamError = none) :
    (download_file env).rangeSent = some prior.length ∧
    (download_file env).openedMode = some FileMode.wb ∧
    (download_file env).progressInitial = 0 ∧
    (download_file env).file = some resp.chunks.flatten ∧
    (download_file env).outcome = Outcome.retTrue := by
  obtain ⟨hw1, hw2⟩ := streamChunks_no_write_error env.writeError hwe resp.chunks 0 0
  simp only [download_file, hhead, hfile, Option.map_some', Option.getD_some]
  rw [if_neg hcond]
  simp only [transferPhase, rangeHeaderOf_pos hk, hget, hs]
  rw [if_neg (by decide : ¬(400 ≤ 200))]
  simp only [effectiveMode_200, effectiveSize_200, hopen, streamPhase, openBase,
    hw1, hw2, hse, List.nil_append]
  refine ⟨?_, ?_, ?_, ?_, ?_⟩ <;> trivial

/-- C3: on a destination file of `k` bytes with `0 < k < total_size` and a
server that honors the range request with a 206 response whose body is the
remainder, `download_file` sends `Range: bytes=k-`, opens the file in
append mode, and after a successful transfer bytes `[0, k)` of the
destination are unchanged and the file size equals `total_size`. -/
theorem c3_resume_appends (env : Env) (prior : List Nat)
    (hdr : Option Nat) (resp : GetResponse)
    (hfile : env.destFile = some prior)
    (hk : 0 < prior.length)
    (hhead : env.headResult = Except.ok hdr)
    (hlt : prior.length < get_file_size hdr)
    (hget : env.getResult (some prior.length) = Except.ok resp)
    (hs : resp.status = 206)
    (hbody : resp.chunks.flatten.length = get_file_size hdr - prior.length)
    (hopen : env.openError FileMode.ab = none)
    (hwe : ∀ i, env.writeError i = none)
    (hse : resp.streamError = none) :
    (download_file env).rangeSent = some prior.length ∧
    (download_file env).openedMode = some FileMode.ab ∧
    (download_file env).outcome = Outcome.retTrue ∧
    ∃ final : List Nat,
      (download_file env).file = some final ∧
      final.take prior.length = prior ∧
      final.length = get_file_size hdr := by
  obtain ⟨hw1, hw2⟩ := streamChunks_no_write_error env.writeError hwe resp.chunks 0 prior.length
  have hcond : ¬(prior.length ≥ get_file_size hdr ∧ 0 < get_file_size hdr) := by
    intro h
    exact absurd hlt (Nat.not_lt.mpr h.1)
  simp only [download_file, hhead, hfile, Option.map_some', Option.getD_some]
  rw [if_neg hcond]
  simp only [transferPhase, rangeHeaderOf_pos hk, hget, hs]
  rw [if_neg (by decide : ¬(400 ≤ 206))]
  simp only [effectiveMode_206, effectiveSize_206, modeOf_pos hk, hopen, streamPhase,
    openBase, hfile, Option.getD_some, hw1, hw2, hse]
  refine ⟨?_, ?_, ?_, prior ++ resp.chunks.flatten, ?_, ?_, ?_⟩
  · trivial
  · trivial
  · trivial
  · trivial
  · rw [List.take_left]
  · rw [List.length_append, hbody]
    omega

/-- C7: when the destination file does not exist, no `Range` header is sent
and the destination is opened in `wb` mode starting at offset 0; when the
transfer succeeds with the server's full-content response carrying exactly
`total_size` bytes, the resulting file size equals `total_size`. -/
theorem c7_fresh_download (env : Env) (hdr : Option Nat) (resp : GetResponse)
    (hfile : env.destFile = none)
    (hhead : env.headResult = Except.ok hdr)
    (hget : env.getResult none = Except.ok resp)
    (hs : resp.status = 200)
    (hbody : resp.chunks.flatten.length = get_file_size hdr)
    (hopen : env.openError FileMode.wb = none)
    (hwe : ∀ i, env.writeError i = none)
    (hse : resp.streamError = none) :
    (download_file env).rangeSent = none ∧
    (download_file env).openedMode = some FileMode.wb ∧
    (download_file env).progressInitial = 0 ∧
    (download_file env).file = some resp.chunks.flatten ∧
    (download_file env).file.map List.length = some (get_file_size hdr) ∧
    (download_file env).outcome = Outcome.retTrue := by
  obtain ⟨hw1, hw2⟩ := streamChunks_no_write_error env.writeError hwe resp.chunks 0 0
  have hcond : ¬((0 : Nat) ≥ get_file_size hdr ∧ 0 < get_file_size hdr) := by
    intro h
    omega
  simp only [download_file, hhead, hfile, Option.map_none', Option.getD_none]
  rw [if_neg hcond]
  simp only [transferPhase, rangeHeaderOf_zero, hget, hs]
  rw [if_neg (by decide : ¬(400 ≤ 200))]
  simp only [effectiveMode_200, effectiveSize_200, hopen, streamPhase, openBase,
    hw1, hw2, hse, List.nil_append, Option.map_some', hbody]
  refine ⟨?_, ?_, ?_, ?_, ?_, ?_⟩ <;> trivial

/-- C10: when the metadata probe yields `total_size = 0` (unknown) and the
destination already holds `k > 0` bytes, the early `AlreadyComplete` return
is not taken (its condition requires `total_size > 0`); the function
proceeds to transfer, sending a `GET` with `Range: bytes=k-`, and — when the
server answers 206 and the open succeeds — opens the destination in append
mode: a forced resume attempt. -/
theorem c10_unknown_size_forces_resume (env : Env) (prior : List Nat)
    (hdr : Option Nat) (resp : GetResponse)
    (hfile : env.destFile = some prior)
    (hk : 0 < prior.length)
    (hhead : env.headResult = Except.ok hdr)
    (htot : get_file_size hdr = 0)
    (hget : env.getResult (some prior.length) = Except.ok resp)
    (hs : resp.status = 206)
    (hopen : env.openError FileMode.ab = none) :
    (download_file env).alreadyComplete = false ∧
    (download_file env).getAttempted = true ∧
    (download_file env).rangeSent = some prior.length ∧
    (download_file env).openedMode = some FileMode.ab := by
  have hcond : ¬(prior.length ≥ get_file_size hdr ∧ 0 < get_file_size hdr) := by
    rw [htot]
    intro h
    exact absurd h.2 (lt_irrefl 0)
  simp only [download_file, hhead, hfile, Option.map_some', Option.getD_some]
  rw [if_neg hcond]
  simp only [transferPhase, rangeHeaderOf_pos hk, hget, hs]
  rw [if_neg (by decide : ¬(400 ≤ 206))]
  simp only [effectiveMode_206, effectiveSize_206, modeOf_pos hk, hopen, streamPhase,
    openBase]
  cases hw : (streamChunks env.writeError resp.chunks 0 prior.length).2.2 with
  | some e => refine ⟨?_, ?_, ?_, ?_⟩ <;> trivial
  | none =>
    cases hse : resp.streamError with
    | some e => refine ⟨?_, ?_, ?_, ?_⟩ <;> trivial
    | none => refine ⟨?_, ?_, ?_, ?_⟩ <;> trivial

/-- C8: `get_file_size` reads the declared total size from the `HEAD`
response's `content-length` header as an integer, returning 0 (unknown)
whenever the header is absent. -/
theorem c8_get_file_size_header (n : Nat) :
    get_file_size (some n) = n ∧ get_file_size none = 0 :=
  ⟨rfl, rfl⟩

/-- C4: when the destination file exists with size ≥ `total_size` and
`total_size > 0`, `download_file` returns success as already complete, never
attempts the body `GET` (only the `HEAD` probe happened), and neither opens
nor modifies the destination file. -/
theorem c4_already_complete (env : Env) (content : List Nat) (hdr : Option Nat)
    (hfile : env.destFile = some content)
    (hhead : env.headResult = Except.ok hdr)
    (hpos : 0 < get_file_size hdr)
    (hge : get_file_size hdr ≤ content.length) :
    (download_file env).outcome = Outcome.retTrue ∧
    (download_file env).alreadyComplete = true ∧
    (download_file env).getAttempted = false ∧
    (download_file env).openedMode = none ∧
    (download_file env).file = some content := by
  have : download_file env =
      { outcome := Outcome.retTrue, file := some content, alreadyComplete := true,
        rangeSent := none, getAttempted := false, openedMode := none,
        progressInitial := 0, pbarTotal := none, progressReports := [] } := by
    simp only [download_file, hhead, hfile, Option.map_some', Option.getD_some]
    rw [if_pos ⟨hge, hpos⟩]
  rw [this]
  exact ⟨rfl, rfl, rfl, rfl, rfl⟩

/-- C5: a network-layer error raised by `iter_content` during streaming is a
`requests` exception, caught by the `except` clause: `download_file` stops
and returns `False` with the printed cause, and the destination file still
holds the open-mode base content plus every chunk delivered before the
failure — it is neither deleted nor truncated to zero, which is what keeps
a later invocation resumable. -/
theorem c5_stream_error_keeps_partial (env : Env) (hdr : Option Nat)
    (resp : GetResponse) (k : Nat) (e : String)
    (hk : (env.destFile.map List.length).getD 0 = k)
    (hhead : env.headResult = Except.ok hdr)
    (hcond : ¬(k ≥ get_file_size hdr ∧ 0 < get_file_size hdr))
    (hget : env.getResult (rangeHeaderOf k) = Except.ok resp)
    (hst : resp.status < 400)
    (hopen : env.openError (effectiveMode k resp.status) = none)
    (hwe : ∀ i, env.writeError i = none)
    (hse : resp.streamError = some e) :
    (download_file env).outcome = Outcome.retFalse ("Download error: " ++ e) ∧
    (download_file env).file =
      some (openBase env (effectiveMode k resp.status) ++ resp.chunks.flatten) ∧
    (download_file env).file ≠ none := by
  obtain ⟨hw1, hw2⟩ := streamChunks_no_write_error env.writeError hwe resp.chunks 0
    (effectiveSize k resp.status)
  simp only [download_file, hhead, hk]
  rw [if_neg hcond]
  simp only [transferPhase, hget]
  rw [if_neg (Nat.not_le.mpr hst)]
  simp only [hopen, streamPhase, hw1, hw2, hse]
  refine ⟨?_, ?_, ?_⟩ <;> simp

/-- C2 is FALSE as stated: here every network interaction succeeds (the
server even answers 200 with the body), but the local `open` fails with a
permission error.  `OSError` is not a `requests.exceptions.RequestException`,
so the `except` clause does not catch it: `download_file` does not return
`False` — the error escapes as an uncaught exception. -/
theorem c2_counterexample :
    (download_file c2CexEnv).outcome = Outcome.raised "Permission denied" ∧
    ∀ m, (download_file c2CexEnv).outcome ≠ Outcome.retFalse m := by
  have h0 : (download_file c2CexEnv).outcome = Outcome.raised "Permission denied" := by
    decide
  refine ⟨h0, ?_⟩
  intro m h
  rw [h0] at h
  exact Outcome.noConfusion h

/-- C2 (amended): errors of the `GET` request and of response streaming —
connection failures, non-success HTTP statuses, mid-stream network errors —
are caught and returned as a `False` outcome with a human-readable
`Download error` cause, and when the `HEAD` probe and the filesystem
succeed nothing is ever raised; but errors of the `HEAD` size probe
(issued outside the `try` block) escape `download_file` as uncaught
exceptions, and so do local filesystem open/write failures (not
`RequestException`s), as `c2_counterexample` shows for `open`.  Each caught
case is stated as its own conjunct with the error hypothesized: a `GET`
connection error, a 400-or-above status, and a mid-stream error each force
the `False` outcome with the corresponding cause. -/
theorem c2_amended_errors (env : Env) (hdr : Option Nat) (k : Nat)
    (hk : (env.destFile.map List.length).getD 0 = k)
    (hopen : ∀ m, env.openError m = none)
    (hwe : ∀ i, env.writeError i = none) :
    (∀ e, env.headResult = Except.error e →
      (download_file env).outcome = Outcome.raised e) ∧
    (env.headResult = Except.ok hdr →
      (∀ m, (download_file env).outcome ≠ Outcome.raised m) ∧
      (¬(k ≥ get_file_size hdr ∧ 0 < get_file_size hdr) →
        (∀ e, env.getResult (rangeHeaderOf k) = Except.error e →
          (download_file env).outcome = Outcome.retFalse ("Download error: " ++ e)) ∧
        (∀ resp, env.getResult (rangeHeaderOf k) = Except.ok resp →
          400 ≤ resp.status →
          (download_file env).outcome =
            Outcome.retFalse ("Download error: HTTP status " ++ toString resp.status)) ∧
        (∀ resp e, env.getResult (rangeHeaderOf k) = Except.ok resp →
          resp.status < 400 → resp.streamError = some e →
          (download_file env).outcome = Outcome.retFalse ("Download error: " ++ e)))) := by
  constructor
  · intro e he
    simp only [download_file, he]
  · intro hh
    constructor
    · intro m
      simp only [download_file, hh, hk]
      by_cases hcond : k ≥ get_file_size hdr ∧ 0 < get_file_size hdr
      · rw [if_pos hcond]
        simp
      · rw [if_neg hcond]
        cases hget : env.getResult (rangeHeaderOf k) with
        | error e =>
          simp only [transferPhase, hget]
          simp
        | ok resp =>
          simp only [transferPhase, hget]
          by_cases hst : 400 ≤ resp.status
          · rw [if_pos hst]
            simp
          · rw [if_neg hst]
            obtain ⟨hw1, hw2⟩ := streamChunks_no_write_error env.writeError hwe resp.chunks 0
              (effectiveSize k resp.status)
            simp only [hopen, streamPhase, hw2]
            cases hse : resp.streamError with
            | some e => simp
            | none => simp
    · intro hcond
      refine ⟨?_, ?_, ?_⟩
      · intro e hget
        simp only [download_file, hh, hk]
        rw [if_neg hcond]
        simp only [transferPhase, hget]
      · intro resp hget hst
        simp only [download_file, hh, hk]
        rw [if_neg hcond]
        simp only [transferPhase, hget]
        rw [if_pos hst]
      · intro resp e hget hst hse
        obtain ⟨hw1, hw2⟩ := streamChunks_no_write_error env.writeError hwe resp.chunks 0
          (effectiveSize k resp.status)
        simp only [download_file, hh, hk]
        rw [if_neg hcond]
        simp only [transferPhase, hget]
        rw [if_neg (Nat.not_le.mpr hst)]
        simp only [hopen, streamPhase, hw2, hse]

/-- C9: in every invocation, the cumulative bytes-transferred values
reported after each written chunk form a monotonically non-decreasing
sequence starting from the progress baseline (every chunk contributes a
non-negative length), and whenever a progress bar exists its reported
total is exactly the `total_size` from the size probe — which may be 0,
meaning unknown. -/
theorem c9_progress_monotone (env : Env) :
    List.Chain' (· ≤ ·)
      ((download_file env).progressInitial :: (download_file env).progressReports) ∧
    ((download_file env).pbarTotal = none ∨
      ∃ hdr, env.headResult = Except.ok hdr ∧
        (download_file env).pbarTotal = some (get_file_size hdr)) := by
  cases hhead : env.headResult with
  | error e =>
    simp only [download_file, hhead]
    exact ⟨List.chain'_singleton 0, Or.inl (by trivial)⟩
  | ok hdr =>
    simp only [download_file, hhead]
    by_cases hcond :
        (env.destFile.map List.length).getD 0 ≥ get_file_size hdr ∧ 0 < get_file_size hdr
    · rw [if_pos hcond]
      exact ⟨List.chain'_singleton 0, Or.inl (by trivial)⟩
    · rw [if_neg hcond]
      cases hget : env.getResult (rangeHeaderOf ((env.destFile.map List.length).getD 0)) with
      | error e =>
        simp only [transferPhase, hget]
        exact ⟨List.chain'_singleton 0, Or.inl (by trivial)⟩
      | ok resp =>
        simp only [transferPhase, hget]
        by_cases hst : 400 ≤ resp.status
        · rw [if_pos hst]
          exact ⟨List.chain'_singleton 0, Or.inl (by trivial)⟩
        · rw [if_neg hst]
          have hchain := streamChunks_chain env.writeError resp.chunks 0
            (effectiveSize ((env.destFile.map List.length).getD 0) resp.status)
          cases hopen :
              env.openError (effectiveMode ((env.destFile.map List.length).getD 0) resp.status) with
          | some e =>
            simp only [hopen]
            exact ⟨List.chain'_singleton 0, Or.inl (by trivial)⟩
          | none =>
            simp only [hopen, streamPhase]
            cases hw : (streamChunks env.writeError resp.chunks 0
                (effectiveSize ((env.destFile.map List.length).getD 0) resp.status)).2.2 with
            | some e => exact ⟨hchain, Or.inr ⟨hdr, rfl, by trivial⟩⟩
            | none =>
              cases hse : resp.streamError with
              | some e2 => exact ⟨hchain, Or.inr ⟨hdr, rfl, by trivial⟩⟩
              | none => exact ⟨hchain, Or.inr ⟨hdr, rfl, by trivial⟩⟩

/-- C6: `calculate_sha256` returns the lowercase hexadecimal SHA-256 digest
(64 hex characters encoding a 256-bit hash) of the file's full byte
content, obtained by feeding fixed-size chunks into a streaming
accumulator; it is deterministic — two runs, even with different chunk
sizes, return the identical string — and on a zero-byte file it returns
the well-known digest of the empty byte sequence. -/
theorem c6_sha256_digest (content : List Nat) (cs cs2 : Nat)
    (h : 0 < cs) (h2 : 0 < cs2) :
    calculate_sha256 content cs = sha256hex content ∧
    calculate_sha256 content cs = calculate_sha256 content cs2 ∧
    (calculate_sha256 content cs).length = 64 ∧
    (∀ c ∈ (calculate_sha256 content cs).toList, c ∈ hexDigits) ∧
    calculate_sha256 [] cs =
      "e3b0c44298fc1c149afbf4c8996fb92427ae41e4649b934ca495991b7852b855" := by
  have e1 := calculate_sha256_eq content cs h
  have e2 := calculate_sha256_eq content cs2 h2
  refine ⟨e1, e1.trans e2.symm, ?_, ?_, ?_⟩
  · rw [e1, sha256hex_length]
  · rw [e1]
    exact sha256hex_chars content
  · rw [calculate_sha256_eq [] cs h, sha256hex_nil]

/-! ### Witnesses -/

/-- Witness for C1 at `c1Env`. -/
theorem c1_witness :
    (download_file c1Env).rangeSent = some ([7, 7] : List Nat).length ∧
    (download_file c1Env).openedMode = some FileMode.wb ∧
    (download_file c1Env).progressInitial = 0 ∧
    (download_file c1Env).file = some ([[1, 2, 3], [4, 5]] : List (List Nat)).flatten ∧
    (download_file c1Env).outcome = Outcome.retTrue :=
  c1_status200_discards_resume c1Env [7, 7] (some 5) ⟨200, [[1, 2, 3], [4, 5]], none⟩
    rfl (by decide) rfl (by decide) rfl rfl rfl (fun _ => rfl) rfl

/-- Witness for the amended C2 at `c2AmEnv`, whose `GET` raises a
connection error: in particular the second conjunct's first caught case
applies at `e = "Connection refused"` and forces the caught `False`
outcome. -/
theorem c2_amended_witness :
    (∀ e, c2AmEnv.headResult = Except.error e →
      (download_file c2AmEnv).outcome = Outcome.raised e) ∧
    (c2AmEnv.headResult = Except.ok (some 1) →
      (∀ m, (download_file c2AmEnv).outcome ≠ Outcome.raised m) ∧
      (¬(0 ≥ get_file_size (some 1) ∧ 0 < get_file_size (some 1)) →
        (∀ e, c2AmEnv.getResult (rangeHeaderOf 0) = Except.error e →
          (download_file c2AmEnv).outcome = Outcome.retFalse ("Download error: " ++ e)) ∧
        (∀ resp, c2AmEnv.getResult (rangeHeaderOf 0) = Except.ok resp →
          400 ≤ resp.status →
          (download_file c2AmEnv).outcome =
            Outcome.retFalse ("Download error: HTTP status " ++ toString resp.status)) ∧
        (∀ resp e, c2AmEnv.getResult (rangeHeaderOf 0) = Except.ok resp →
          resp.status < 400 → resp.streamError = some e →
          (download_file c2AmEnv).outcome = Outcome.retFalse ("Download error: " ++ e)))) :=
  c2_amended_errors c2AmEnv (some 1) 0 rfl (fun _ => rfl) (fun _ => rfl)

/-- Witness for C3 at `c3Env`. -/
theorem c3_witness :
    (download_file c3Env).rangeSent = some ([9, 8] : List Nat).length ∧
    (download_file c3Env).openedMode = some FileMode.ab ∧
    (download_file c3Env).outcome = Outcome.retTrue ∧
    ∃ final : List Nat,
      (download_file c3Env).file = some final ∧
      final.take ([9, 8] : List Nat).length = [9, 8] ∧
      final.length = get_file_size (some 5) :=
  c3_resume_appends c3Env [9, 8] (some 5) ⟨206, [[1, 2, 3]], none⟩
    rfl (by decide) rfl (by decide) rfl rfl (by decide) rfl (fun _ => rfl) rfl

/-- Witness for C4 at `c4Env`. -/
theorem c4_witness :
    (download_file c4Env).outcome = Outcome.retTrue ∧
    (download_file c4Env).alreadyComplete = true ∧
    (download_file c4Env).getAttempted = false ∧
    (download_file c4Env).openedMode = none ∧
    (download_file c4Env).file = some [1, 2, 3] :=
  c4_already_complete c4Env [1, 2, 3] (some 3) rfl rfl (by decide) (by decide)

/-- Witness for C5 at `c5Env`. -/
theorem c5_witness :
    (download_file c5Env).outcome = Outcome.retFalse ("Download error: " ++ "Connection reset") ∧
    (download_file c5Env).file =
      some (openBase c5Env (effectiveMode 1 206) ++ ([[1, 2]] : List (List Nat)).flatten) ∧
    (download_file c5Env).file ≠ none :=
  c5_stream_error_keeps_partial c5Env (some 10) ⟨206, [[1, 2]], some "Connection reset"⟩ 1
    "Connection reset" rfl rfl (by decide) rfl (by decide) rfl (fun _ => rfl) rfl

/-- Witness for C6 on the 3-byte file `abc` with chunk sizes 2 and 8192. -/
theorem c6_witness :
    calculate_sha256 [97, 98, 99] 2 = sha256hex [97, 98, 99] ∧
    calculate_sha256 [97, 98, 99] 2 = calculate_sha256 [97, 98, 99] 8192 ∧
    (calculate_sha256 [97, 98, 99] 2).length = 64 ∧
    (∀ c ∈ (calculate_sha256 [97, 98, 99] 2).toList, c ∈ hexDigits) ∧
    calculate_sha256 [] 2 =
      "e3b0c44298fc1c149afbf4c8996fb92427ae41e4649b934ca495991b7852b855" :=
  c6_sha256_digest [97, 98, 99] 2 8192 (by decide) (by decide)

/-- Witness for C7 at `c7Env`. -/
theorem c7_witness :
    (download_file c7Env).rangeSent = none ∧
    (download_file c7Env).openedMode = some FileMode.wb ∧
    (download_file c7Env).progressInitial = 0 ∧
    (download_file c7Env).file = some ([[1, 2, 3]] : List (List Nat)).flatten ∧
    (download_file c7Env).file.map List.length = some (get_file_size (some 3)) ∧
    (download_file c7Env).outcome = Outcome.retTrue :=
  c7_fresh_download c7Env (some 3) ⟨200, [[1, 2, 3]], none⟩
    rfl rfl rfl rfl (by decide) rfl (fun _ => rfl) rfl

/-- Witness for C10 at `c10Env`. -/
theorem c10_witness :
    (download_file c10Env).alreadyComplete = false ∧
    (download_file c10Env).getAttempted = true ∧
    (download_file c10Env).rangeSent = some ([5] : List Nat).length ∧
    (download_file c10Env).openedMode = some FileMode.ab :=
  c10_unknown_size_forces_resume c10Env [5] none ⟨206, [[1]], none⟩
    rfl (by decide) rfl rfl rfl rfl rfl

end Medicaid
